import Mathlib

/-!
Shallow embedding of the yewtil adapter core: the `Pure` component wrapper
(src/pure.rs), the `PersistFetching` wrapper (src/fetch/persist_fetching.rs)
and the deferred scope-binding producer (src/dsl/vcomp.rs).

Side effects are made explicit: invoking a yew `Callback` is modelled as
producing a `CallbackCall` event, so a lifecycle method that in Rust mutates
`self` and fires callbacks here returns the new state, the `ShouldRender`
flag and the list of callback invocations it performed.
-/

namespace Yewtil

/-- Model of a yew `Callback<M>` handle: an identity; invoking it delivers a
message to the handler registered under that identity. -/
structure Callback (M : Type) where
  id : Nat

/-- One callback invocation event: which callback handle received which
message. Lifecycle methods return the list of such events they caused. -/
structure CallbackCall (M : Type) where
  cb : Nat
  msg : M

/-- Model of yew `Html` / `VNode` output: a leaf payload or a `VList`
grouping node (the result of collecting an iterator of nodes). -/
inductive Html (A : Type) where
  | leaf : A → Html A
  | vlist : List (Html A) → Html A

/-- The `Emissive` trait of src/pure.rs: routes a message to an externally
registered callback held in the properties value. `emit` returns the
callback-invocation events it performs. -/
structure Emissive (T M : Type) where
  emit : T → M → List (CallbackCall M)

/-- The `PureComponent` trait of src/pure.rs: a pure render function of the
properties value. -/
structure PureComponent (T V : Type) where
  render : T → V

/-- The `PureEmissiveComponent` trait of src/pure.rs: render plus
`send_message`. -/
structure PureEmissiveComponent (T M V : Type) where
  render : T → V
  send_message : T → M → List (CallbackCall M)

/-- The blanket `impl<T> PureEmissiveComponent for T where T: PureComponent +
Emissive` of src/pure.rs lines 26-36: `render` defers to
`PureComponent::render` and `send_message` defers to `Emissive::emit`. -/
def blanketPureEmissive {T M V : Type} (pc : PureComponent T V) (em : Emissive T M) :
    PureEmissiveComponent T M V :=
  { render := pc.render, send_message := em.emit }

/-- Modelled from the spec: the `Emissive` derive macro (not under src/; its
behavior is documented in src/pure.rs lines 44-54) locates the callback field
of the properties and makes `emit` call `callback.emit(msg)` on it; if no
callback field exists, `emit` does nothing. `getCallback` stands for the
located (possibly absent) callback field. -/
def derivedEmissive {T M : Type} (getCallback : T → Option (Callback M)) : Emissive T M :=
  { emit := fun t m =>
      match getCallback t with
      | some c => [⟨c.id, m⟩]
      | none => [] }

/-- The wrapper component `Pure<T>` of src/pure.rs: a newtype holding the
wrapped properties value. -/
structure Pure (T : Type) where
  val : T

/-- `Pure::create` (src/pure.rs lines 97-99): `Pure(props)`. -/
def Pure.create {T : Type} (props : T) : Pure T :=
  ⟨props⟩

/-- `Pure::update` (src/pure.rs lines 101-104): `self.0.send_message(msg);
false`. Returns the (unchanged) state, the `ShouldRender` flag and the
callback events produced by `send_message`. -/
def Pure.update {T M V : Type} (pec : PureEmissiveComponent T M V) (s : Pure T) (m : M) :
    Pure T × Bool × List (CallbackCall M) :=
  (s, false, pec.send_message s.val m)

/-- Modelled from the spec: `NeqAssign::neq_assign` (used by src/pure.rs line
107 but not itself under src/): if the incoming value equals the current one,
keep the current value and report `false`; otherwise replace it with the
incoming value and report `true`. -/
def neq_assign {T : Type} [DecidableEq T] (current incoming : T) : T × Bool :=
  if current ≠ incoming then (incoming, true) else (current, false)

/-- `Pure::change` (src/pure.rs lines 106-108): `self.0.neq_assign(props)`. -/
def Pure.change {T : Type} [DecidableEq T] (s : Pure T) (props : T) : Pure T × Bool :=
  let r := neq_assign s.val props
  (⟨r.1⟩, r.2)

/-- `Pure::view` (src/pure.rs lines 110-112): `self.0.render()`. -/
def Pure.view {T M V : Type} (pec : PureEmissiveComponent T M V) (s : Pure T) : V :=
  pec.render s.val

/-- The `Render<T, M>` property field of src/fetch/persist_fetching.rs: an
optional render function. -/
structure RenderFn (T V : Type) where
  render : Option (T → V)

/-- `PersistFetchingProps` of src/fetch/persist_fetching.rs: static children,
an optional render function, the externally populated `data`, and an optional
relay callback. -/
structure PersistFetchingProps (T M V : Type) where
  children : List (Html V)
  render : RenderFn T (Html V)
  data : Option T
  callback : Option (Callback M)

/-- The `PersistFetching` component of src/fetch/persist_fetching.rs: holds
its properties. -/
structure PersistFetching (T M V : Type) where
  props : PersistFetchingProps T M V

/-- `PersistFetching::create` (src/fetch/persist_fetching.rs lines 46-48):
`PersistFetching { props }`. -/
def PersistFetching.create {T M V : Type} (props : PersistFetchingProps T M V) :
    PersistFetching T M V :=
  ⟨props⟩

/-- `PersistFetching::update` (src/fetch/persist_fetching.rs lines 50-55):
if a callback is registered, `callback.emit(msg)`; in every case return
`false`. The state is returned unchanged. -/
def PersistFetching.update {T M V : Type} (s : PersistFetching T M V) (m : M) :
    PersistFetching T M V × Bool × List (CallbackCall M) :=
  match s.props.callback with
  | some c => (s, false, [⟨c.id, m⟩])
  | none => (s, false, [])

/-- `Renderable::view` for `PersistFetching` (src/fetch/persist_fetching.rs
lines 58-66): with a render function present, apply it to
`data.as_ref().unwrap()` — the `unwrap` panic on absent data is modelled as
the result `none`; with no render function, collect the static children into
a `VList` node (yew collects an iterator of nodes into `VNode::VList`). -/
def PersistFetching.view {T M V : Type} (s : PersistFetching T M V) : Option (Html V) :=
  match s.props.render.render with
  | some f => s.props.data.map f
  | none => some (Html.vlist s.props.children)

/-- Model of yew `VComp`: a virtual component node tagged with the child
component kind and carrying the captured properties and the bound scope.
Modelled from the spec at the yew boundary: `VComp::new::<CHILD>(props,
scope)` is external to this repository and builds exactly this record. -/
structure VComp (P S : Type) where
  kind : Nat
  props : P
  scope : S

/-- Model of a yew `VNode` produced by the dsl module: here only the
component-node case reached by `.into()` on a `VComp` matters. -/
inductive VNode (P S : Type) where
  | vcomp : VComp P S → VNode P S

/-- `VCompProducer` of src/dsl/vcomp.rs: a deferred closure from the
not-yet-known scope to the finished `VComp`. -/
structure VCompProducer (P S : Type) where
  run : S → VComp P S

/-- `VCompProducer::new` (src/dsl/vcomp.rs lines 8-14): capture the child
kind and the properties in a closure that, given a scope, builds
`VComp::new::<CHILD>(props, scope)`. The child component kind, a type
parameter in Rust, is modelled as a `Nat` tag. -/
def VCompProducer.new {P S : Type} (kind : Nat) (props : P) : VCompProducer P S :=
  ⟨fun scope => ⟨kind, props, scope⟩⟩

/-- `BoxedVNodeProducer` (declared in the dsl module, outside the given
sources): a deferred closure from a scope to a `VNode`. -/
structure BoxedVNodeProducer (P S : Type) where
  run : S → VNode P S

/-- Modelled from the spec: `BoxedVNodeProducer::wrap` (dsl module, not under
src/) wraps a scope-to-node closure into the producer. -/
def BoxedVNodeProducer.wrap {P S : Type} (f : S → VNode P S) : BoxedVNodeProducer P S :=
  ⟨f⟩

/-- `From<VCompProducer<COMP>> for BoxedVNodeProducer` (src/dsl/vcomp.rs
lines 16-22): wrap the closure that runs the producer on the scope and
converts the resulting `VComp` into a `VNode`. -/
def BoxedVNodeProducer.fromVCompProducer {P S : Type} (vp : VCompProducer P S) :
    BoxedVNodeProducer P S :=
  BoxedVNodeProducer.wrap (fun scope => VNode.vcomp (vp.run scope))

/-- Claim C1: equality-gated property update of the pure wrapper. For current
properties `p` and incoming `q`, `Pure.change` keeps `p` and returns `false`
when `q = p`, and stores `q` and returns `true` when `q ≠ p`. -/
theorem pure_change_equality_gate {T : Type} [DecidableEq T] (p q : T) :
    (q = p → Pure.change ⟨p⟩ q = (⟨p⟩, false)) ∧
    (q ≠ p → Pure.change ⟨p⟩ q = (⟨q⟩, true)) := by
  constructor
  · intro h
    subst h
    simp [Pure.change, neq_assign]
  · intro h
    have hpq : ¬ p = q := fun hpq => h hpq.symm
    simp [Pure.change, neq_assign, hpq]

/-- Witness for claim C1 at concrete inputs: properties value 1, then an
equal and an unequal incoming value. -/
theorem pure_change_equality_gate_witness :
    Pure.change (⟨1⟩ : Pure Nat) 1 = (⟨1⟩, false) ∧
    Pure.change (⟨1⟩ : Pure Nat) 2 = (⟨2⟩, true) :=
  ⟨(pure_change_equality_gate 1 1).1 rfl, (pure_change_equality_gate 1 2).2 (by decide)⟩

/-- Claim C2: with a render function present, the persisting wrapper renders
`f v` whenever `data = some v`; with the render function present but data
absent, the `unwrap` branch fails (modelled as `none`), never silently
rendering nothing. -/
theorem persist_view_render_fn {T M V : Type} (s : PersistFetching T M V)
    (f : T → Html V) (hr : s.props.render.render = some f) :
    (∀ v : T, s.props.data = some v → PersistFetching.view s = some (f v)) ∧
    (s.props.data = none → PersistFetching.view s = none) := by
  constructor
  · intro v hv
    simp [PersistFetching.view, hr, hv]
  · intro hv
    simp [PersistFetching.view, hr, hv]

/-- Witness for claim C2: a concrete wrapper with `data = some 3` and a leaf
render function renders `leaf 3`. -/
theorem persist_view_render_fn_witness :
    PersistFetching.view
        (⟨⟨[], ⟨some (fun n => Html.leaf n)⟩, some 3, none⟩⟩ : PersistFetching Nat Nat Nat)
      = some (Html.leaf 3) :=
  (persist_view_render_fn _ (fun n => Html.leaf n) rfl).1 3 rfl

/-- Claim C3: the pure wrapper's `update` forwards the message through the
derived emissive capability, so a registered callback is invoked exactly once
with the message; the state is unchanged and the needs-rerender flag is
`false`. Moreover the flag is `false` for every capability implementation. -/
theorem pure_update_forwards_once {T M V : Type} (pc : PureComponent T V)
    (getCb : T → Option (Callback M)) (s : Pure T) (m : M) (c : Callback M)
    (h : getCb s.val = some c) :
    Pure.update (blanketPureEmissive pc (derivedEmissive getCb)) s m
        = (s, false, [⟨c.id, m⟩]) ∧
    (∀ pec : PureEmissiveComponent T M V, (Pure.update pec s m).2.1 = false) := by
  constructor
  · simp [Pure.update, blanketPureEmissive, derivedEmissive, h]
  · intro pec
    rfl

/-- Witness for claim C3: a concrete pure wrapper whose properties register
callback 7; message 9 is delivered to it exactly once and `false` returned. -/
theorem pure_update_forwards_once_witness :
    Pure.update
        (blanketPureEmissive (⟨fun n => n⟩ : PureComponent Nat Nat)
          (derivedEmissive (fun _ => some ⟨7⟩)))
        (⟨5⟩ : Pure Nat) 9
      = (⟨5⟩, false, [⟨7, 9⟩]) :=
  (pure_update_forwards_once ⟨fun n => n⟩ (fun _ => some ⟨7⟩) ⟨5⟩ 9 ⟨7⟩ rfl).1

/-- Claim C4: the persisting wrapper's `update` invokes the registered
callback exactly once with the message when one is registered, does nothing
when none is registered, and in both cases returns `false` with the state
unchanged — independently of `data` and the render function. -/
theorem persist_update_relay {T M V : Type} (s : PersistFetching T M V) (m : M) :
    (∀ c : Callback M, s.props.callback = some c →
      PersistFetching.update s m = (s, false, [⟨c.id, m⟩])) ∧
    (s.props.callback = none → PersistFetching.update s m = (s, false, [])) := by
  constructor
  · intro c hc
    simp [PersistFetching.update, hc]
  · intro hc
    simp [PersistFetching.update, hc]

/-- Witness for claim C4: with callback 3 registered, message 8 is relayed to
it once; with no callback, the relay is a no-op; both return `false`. -/
theorem persist_update_relay_witness :
    PersistFetching.update
        (⟨⟨[], ⟨none⟩, none, some ⟨3⟩⟩⟩ : PersistFetching Nat Nat Nat) 8
      = (⟨⟨[], ⟨none⟩, none, some ⟨3⟩⟩⟩, false, [⟨3, 8⟩]) ∧
    PersistFetching.update
        (⟨⟨[], ⟨none⟩, none, none⟩⟩ : PersistFetching Nat Nat Nat) 8
      = (⟨⟨[], ⟨none⟩, none, none⟩⟩, false, []) :=
  ⟨(persist_update_relay _ 8).1 ⟨3⟩ rfl, (persist_update_relay _ 8).2 rfl⟩

/-- Claim C5: the producer created with child kind `k` and properties `p`
captures them inertly; binding it with scope `sc` — directly or through the
`BoxedVNodeProducer` conversion — yields the virtual node tagged `k` whose
scope is `sc` and whose properties are `p`. -/
theorem vcomp_producer_bind {P S : Type} (k : Nat) (p : P) (sc : S) :
    (VCompProducer.new k p : VCompProducer P S).run sc = ⟨k, p, sc⟩ ∧
    (BoxedVNodeProducer.fromVCompProducer (VCompProducer.new k p)).run sc
      = VNode.vcomp ⟨k, p, sc⟩ :=
  ⟨rfl, rfl⟩

/-- Claim C6: with no render function, the persisting wrapper renders exactly
its static children, collected into the host's list node; in particular a
wrapper with children `[c]` renders the collection holding exactly `c`. -/
theorem persist_view_children {T M V : Type} (s : PersistFetching T M V)
    (hr : s.props.render.render = none) :
    PersistFetching.view s = some (Html.vlist s.props.children) := by
  simp [PersistFetching.view, hr]

/-- Witness for claim C6: a concrete wrapper with `data = none`, no render
function and children `[leaf 0]` renders the collection of that one child. -/
theorem persist_view_children_witness :
    PersistFetching.view
        (⟨⟨[Html.leaf 0], ⟨none⟩, none, none⟩⟩ : PersistFetching Nat Nat Nat)
      = some (Html.vlist [Html.leaf 0]) :=
  persist_view_children _ rfl

/-- Claim C7: the pure wrapper's `view` delegates to the wrapped value's pure
render function and is deterministic: two instances holding equal properties
render equal output; no state is produced or changed. -/
theorem pure_view_deterministic {T M V : Type} (pec : PureEmissiveComponent T M V)
    (s1 s2 : Pure T) (h : s1.val = s2.val) :
    Pure.view pec s1 = pec.render s1.val ∧ Pure.view pec s1 = Pure.view pec s2 := by
  refine ⟨rfl, ?_⟩
  simp [Pure.view, h]

/-- Witness for claim C7 at a concrete component and two instances holding
equal properties. -/
theorem pure_view_deterministic_witness :
    Pure.view (⟨fun n => n + 1, fun _ _ => []⟩ : PureEmissiveComponent Nat Nat Nat) ⟨4⟩
        = (⟨fun n => n + 1, fun _ _ => []⟩ : PureEmissiveComponent Nat Nat Nat).render 4 ∧
    Pure.view (⟨fun n => n + 1, fun _ _ => []⟩ : PureEmissiveComponent Nat Nat Nat) ⟨4⟩
        = Pure.view (⟨fun n => n + 1, fun _ _ => []⟩ : PureEmissiveComponent Nat Nat Nat) ⟨4⟩ :=
  pure_view_deterministic _ ⟨4⟩ ⟨4⟩ rfl

/-- Claim C8: the blanket `PureEmissiveComponent` adapter is extensionally
the composition of its parts: its render equals `PureComponent::render` and
its `send_message` equals `Emissive::emit`, over the shared message type. -/
theorem blanket_composition {T M V : Type} (pc : PureComponent T V) (em : Emissive T M) :
    (blanketPureEmissive pc em).render = pc.render ∧
    (blanketPureEmissive pc em).send_message = em.emit :=
  ⟨rfl, rfl⟩

/-- Claim C9: creation stores the properties verbatim: the pure wrapper's
instance is exactly the properties value and the persisting wrapper's stored
properties are the given ones, with no other state. -/
theorem create_stores_props {T M V : Type} (p : T) (pp : PersistFetchingProps T M V) :
    Pure.create p = ⟨p⟩ ∧ (Pure.create p).val = p ∧
    PersistFetching.create pp = ⟨pp⟩ ∧ (PersistFetching.create pp).props = pp :=
  ⟨rfl, rfl, rfl, rfl⟩

/-- Claim C10: message handling preserves the wrapper state: after `update`
the pure wrapper's stored properties and the persisting wrapper's stored
properties (children, render function, data and callback included) are
unchanged. -/
theorem update_preserves_state {T M V : Type} (pec : PureEmissiveComponent T M V)
    (s : Pure T) (m : M) (ps : PersistFetching T M V) :
    (Pure.update pec s m).1 = s ∧ (PersistFetching.update ps m).1 = ps := by
  refine ⟨rfl, ?_⟩
  cases hc : ps.props.callback <;> simp [PersistFetching.update, hc]

end Yewtil
